import Mathlib

/-!
Verification of the dew heater controller core: the per-cycle relay decision
logic of the sensor loop, the humidity spike filter, the controller state
operations, and the Magnus dew-point function.

Temperatures and timestamps in the control loop are modelled as rationals
(timestamps in seconds); the dew-point function, which uses a logarithm, is
modelled over the reals.  Configuration constants take their default values.
-/

/-- Default offset between enclosure temperature and the dew point that
defines the turn-on threshold, degrees Celsius. -/
def AMBIENT_TEMP_OFFSET_C : ℚ := 5

/-- Default hysteresis width, degrees Celsius. -/
def HYSTERESIS_C : ℚ := 5

/-- Default ambient temperature/dew-point gap that triggers a forced run. -/
def FORCE_RUN_TEMP_DIFF_C : ℚ := 6

/-- Default forced-run duration, seconds (30 minutes). -/
def FORCE_RUN_DURATION : ℚ := 30 * 60

/-- Default cooldown after a forced run, seconds (60 minutes). -/
def FORCE_RUN_COOLDOWN : ℚ := 60 * 60

/-- Controller mode, the `mode` field of the shared state. -/
inductive Mode
  | auto
  | manual
deriving DecidableEq, Repr

/-- The fields of the ambient weather snapshot that the control loop reads.
Sunrise and sunset are timestamps in seconds; absent fields model a snapshot
dictionary without those keys (or no snapshot at all at the outer level). -/
structure Weather where
  temperature_c : Option ℚ
  dew_point_c : Option ℚ
  sunrise : Option ℚ
  sunset : Option ℚ
deriving DecidableEq, Repr

/-- Shared controller state, mirroring `ControllerState.__init__` in
`state.py`: mode, manual target, relay status, last weather snapshot, and
the forced-run/cooldown timer pair. -/
structure ControllerState where
  mode : Mode
  manual_on : Bool
  relay_on : Bool
  weather : Option Weather
  auto_run_until : Option ℚ
  auto_cooldown_until : Option ℚ
deriving DecidableEq, Repr

/-- Initial state at process start: auto mode, relay off, no timers. -/
def ControllerState.init : ControllerState :=
  { mode := Mode.auto
    manual_on := false
    relay_on := false
    weather := none
    auto_run_until := none
    auto_cooldown_until := none }

/-- `set_mode(mode, manual_on=None)`: set the mode, optionally the target. -/
def ControllerState.set_mode (s : ControllerState) (m : Mode)
    (manual_on : Option Bool) : ControllerState :=
  { s with mode := m, manual_on := manual_on.getD s.manual_on }

/-- `set_manual_on(manual_on)`. -/
def ControllerState.set_manual_on (s : ControllerState) (b : Bool) :
    ControllerState :=
  { s with manual_on := b }

/-- `update_relay(relay_on)`. -/
def ControllerState.update_relay (s : ControllerState) (b : Bool) :
    ControllerState :=
  { s with relay_on := b }

/-- `update_weather(weather)`. -/
def ControllerState.update_weather (s : ControllerState)
    (w : Option Weather) : ControllerState :=
  { s with weather := w }

/-- `start_forced_run(run_until, cooldown_until)`: sets both timers in one
critical section. -/
def ControllerState.start_forced_run (s : ControllerState)
    (run_until cooldown_until : ℚ) : ControllerState :=
  { s with auto_run_until := some run_until
           auto_cooldown_until := some cooldown_until }

/-- `clear_forced_run()`. -/
def ControllerState.clear_forced_run (s : ControllerState) : ControllerState :=
  { s with auto_run_until := none }

/-- `clear_cooldown()`. -/
def ControllerState.clear_cooldown (s : ControllerState) : ControllerState :=
  { s with auto_cooldown_until := none }

/-- `get_timers()`. -/
def ControllerState.get_timers (s : ControllerState) : Option ℚ × Option ℚ :=
  (s.auto_run_until, s.auto_cooldown_until)

/-- The per-cycle inputs of the decision logic in `sensor_loop`: the
sanitized reading (temperature, humidity, dew point), the wall clock `now`,
the loop's `startup_time`, and the ambient weather snapshot returned by the
fetcher this cycle. -/
structure CycleInput where
  temp_c : ℚ
  humidity : ℚ
  dew_c : ℚ
  now : ℚ
  startup_time : ℚ
  weather : Option Weather
deriving DecidableEq, Repr

/-- One cycle's outcome: the updated shared state, the hardware relay
writes issued via `set_relay` (in order), and whether `start_forced_run`
was called this cycle. -/
structure CycleResult where
  state : ControllerState
  writes : List Bool
  forced_run_started : Bool
deriving DecidableEq, Repr

/-- `sunrise_dt` as parsed in the loop: present only when a snapshot exists
and carries the field. -/
def sunriseOf (inp : CycleInput) : Option ℚ :=
  inp.weather.bind Weather.sunrise

/-- `sunset_dt` as parsed in the loop. -/
def sunsetOf (inp : CycleInput) : Option ℚ :=
  inp.weather.bind Weather.sunset

/-- `ambient_dew_c = weather.get("dew_point_c") if weather else None`. -/
def ambientDewOf (inp : CycleInput) : Option ℚ :=
  inp.weather.bind Weather.dew_point_c

/-- `ambient_temp_c = weather.get("temperature_c") if weather else None`. -/
def ambientTempOf (inp : CycleInput) : Option ℚ :=
  inp.weather.bind Weather.temperature_c

/-- `threshold_temp = temp_c - AMBIENT_TEMP_OFFSET_C`. -/
def thresholdTemp (inp : CycleInput) : ℚ :=
  inp.temp_c - AMBIENT_TEMP_OFFSET_C

/-- `baseline_dew = ambient_dew_c if ambient_dew_c is not None else dew_c`. -/
def baselineDew (inp : CycleInput) : ℚ :=
  (ambientDewOf inp).getD inp.dew_c

/-- `should_turn_on = threshold_temp < baseline_dew`. -/
def shouldTurnOn (inp : CycleInput) : Bool :=
  decide (thresholdTemp inp < baselineDew inp)

/-- `should_turn_off = threshold_temp > (baseline_dew + HYSTERESIS_C)`. -/
def shouldTurnOff (inp : CycleInput) : Bool :=
  decide (thresholdTemp inp > baselineDew inp + HYSTERESIS_C)

/-- `auto_ready = (now_dt - startup_time) >= timedelta(minutes=15)`. -/
def autoReady (inp : CycleInput) : Bool :=
  decide (inp.now - inp.startup_time ≥ 15 * 60)

/-- Timer expiry applied to one timer: `if t and now_dt >= t: clear`. -/
def expireTimer (t : Option ℚ) (now : ℚ) : Option ℚ :=
  match t with
  | some r => if now ≥ r then none else some r
  | none => none

/-- The local `run_until` after the expiry step. -/
def runAfterExpire (s : ControllerState) (inp : CycleInput) : Option ℚ :=
  expireTimer s.auto_run_until inp.now

/-- The local `cooldown_until` after the expiry step. -/
def cooldownAfterExpire (s : ControllerState) (inp : CycleInput) : Option ℚ :=
  expireTimer s.auto_cooldown_until inp.now

/-- The daylight block test: both sunrise and sunset known, `now` within
the day, and within the inner window 30 minutes after sunrise to 30 minutes
before sunset. -/
def daylightBlock (sr ss : Option ℚ) (now : ℚ) : Bool :=
  match sr, ss with
  | some sunrise, some sunset =>
      decide (sunrise ≤ now ∧ now ≤ sunset) &&
        decide (sunrise + 30 * 60 ≤ now ∧ now ≤ sunset - 30 * 60)
  | _, _ => false

/-- `daylight_block` for this cycle's input. -/
def daylightOf (inp : CycleInput) : Bool :=
  daylightBlock (sunriseOf inp) (sunsetOf inp) inp.now

/-- Whether an optional timer is still in the future. -/
def timerActive (t : Option ℚ) (now : ℚ) : Bool :=
  match t with
  | some r => decide (now < r)
  | none => false

/-- `in_forced_run` before any forced-run start this cycle. -/
def inForcedRun (s : ControllerState) (inp : CycleInput) : Bool :=
  timerActive (runAfterExpire s inp) inp.now

/-- `cooldown_active`. -/
def cooldownActive (s : ControllerState) (inp : CycleInput) : Bool :=
  timerActive (cooldownAfterExpire s inp) inp.now

/-- `can_force_run`: warm-up elapsed, not daylight-blocked, not already in
a forced run or cooldown, both ambient values known and their gap at most
`FORCE_RUN_TEMP_DIFF_C`.  Note the test does not look at the mode. -/
def canForce (s : ControllerState) (inp : CycleInput) : Bool :=
  autoReady inp && !daylightOf inp && !inForcedRun s inp &&
    !cooldownActive s inp &&
    (match ambientTempOf inp, ambientDewOf inp with
     | some t, some d => decide (t - d ≤ FORCE_RUN_TEMP_DIFF_C)
     | _, _ => false)

/-- State after `update_weather` and the timer-expiry step. -/
def stateAfterTimers (s : ControllerState) (inp : CycleInput) :
    ControllerState :=
  { s with weather := inp.weather
           auto_run_until := runAfterExpire s inp
           auto_cooldown_until := cooldownAfterExpire s inp }

/-- State after the forced-run evaluation: when `can_force_run` holds the
loop calls `start_forced_run(now + FORCE_RUN_DURATION, run_until +
FORCE_RUN_COOLDOWN)`. -/
def stateAfterForce (s : ControllerState) (inp : CycleInput) :
    ControllerState :=
  if canForce s inp then
    (stateAfterTimers s inp).start_forced_run (inp.now + FORCE_RUN_DURATION)
      (inp.now + FORCE_RUN_DURATION + FORCE_RUN_COOLDOWN)
  else stateAfterTimers s inp

/-- `in_forced_run` after the forced-run evaluation (the loop sets it to
`True` when a run starts). -/
def inForcedRunAfter (s : ControllerState) (inp : CycleInput) : Bool :=
  inForcedRun s inp || canForce s inp

/-- One full decision cycle of `sensor_loop` (after the spike filter has
accepted the reading): weather update, timer expiry, forced-run
evaluation, then the manual / forced-run / hysteresis relay branches.
`set_relay` calls are recorded in `writes`. -/
def cycle (s : ControllerState) (inp : CycleInput) : CycleResult :=
  let s3 := stateAfterForce s inp
  match s.mode with
  | Mode.manual =>
      if s.manual_on ≠ s.relay_on then
        { state := s3.update_relay s.manual_on
          writes := [s.manual_on]
          forced_run_started := canForce s inp }
      else
        { state := s3, writes := [], forced_run_started := canForce s inp }
  | Mode.auto =>
      if inForcedRunAfter s inp then
        if !s.relay_on then
          { state := s3.update_relay true
            writes := [true]
            forced_run_started := canForce s inp }
        else
          { state := s3, writes := [], forced_run_started := canForce s inp }
      else if shouldTurnOn inp && !s.relay_on then
        if daylightOf inp then
          { state := s3, writes := [], forced_run_started := canForce s inp }
        else if !autoReady inp then
          { state := s3, writes := [], forced_run_started := canForce s inp }
        else if cooldownActive s inp then
          { state := s3, writes := [], forced_run_started := canForce s inp }
        else
          { state := s3.update_relay true
            writes := [true]
            forced_run_started := canForce s inp }
      else if shouldTurnOff inp && s.relay_on then
        { state := s3.update_relay false
          writes := [false]
          forced_run_started := canForce s inp }
      else
        { state := s3, writes := [], forced_run_started := canForce s inp }

/-- `(cycle s inp).state`, the state handed to the next cycle. -/
def runCycle (s : ControllerState) (inp : CycleInput) : ControllerState :=
  (cycle s inp).state

/-- Iterated cycles. -/
def runCycles (s : ControllerState) (inputs : List CycleInput) :
    ControllerState :=
  inputs.foldl runCycle s

/-- The (state, input) pairs seen along a run of cycles. -/
def trajPairs : ControllerState → List CycleInput →
    List (ControllerState × CycleInput)
  | _, [] => []
  | s, inp :: rest => (s, inp) :: trajPairs (runCycle s inp) rest

/-- The spike-filter state carried across loop iterations: the retained
baseline `last_humidity` and the `humidity_spike_pending` flag, together
with the shared controller state the cycle mutates. -/
structure LoopState where
  ctrl : ControllerState
  last_humidity : Option ℚ
  spike_pending : Bool
deriving DecidableEq, Repr

/-- Outcome of one loop iteration on a valid sensor read: the new loop
state, the hardware writes, and whether the control cycle ran at all
(`false` exactly when the spike filter rejected the reading and the loop
hit `continue`). -/
structure LoopResult where
  loopState : LoopState
  writes : List Bool
  cycle_ran : Bool
deriving DecidableEq, Repr

/-- One iteration of `sensor_loop` on a valid read: the humidity spike
filter, then (when the reading is accepted) baseline update and the full
decision cycle.  A rejection leaves the controller state and the baseline
untouched, marks the spike pending, and skips the cycle. -/
def loopStep (ls : LoopState) (inp : CycleInput) : LoopResult :=
  match ls.last_humidity with
  | some prev =>
      if |inp.humidity - prev| > 15 then
        if !ls.spike_pending then
          { loopState := { ls with spike_pending := true }
            writes := []
            cycle_ran := false }
        else
          let r := cycle ls.ctrl inp
          { loopState :=
              { ctrl := r.state
                last_humidity := some inp.humidity
                spike_pending := false }
            writes := r.writes
            cycle_ran := true }
      else
        let r := cycle ls.ctrl inp
        { loopState :=
            { ctrl := r.state
              last_humidity := some inp.humidity
              spike_pending := false }
          writes := r.writes
          cycle_ran := true }
  | none =>
      let r := cycle ls.ctrl inp
      { loopState :=
          { ctrl := r.state
            last_humidity := some inp.humidity
            spike_pending := false }
        writes := r.writes
        cycle_ran := true }

/-- Controller states reachable through the operations the program
actually performs on the shared state: the initial state, a full decision
cycle, and the operator API calls (mode changes and direct relay
updates). -/
inductive Reachable : ControllerState → Prop
  | init : Reachable ControllerState.init
  | cycleStep (s : ControllerState) (inp : CycleInput) :
      Reachable s → Reachable (cycle s inp).state
  | setMode (s : ControllerState) (m : Mode) (b : Option Bool) :
      Reachable s → Reachable (s.set_mode m b)
  | setManualOn (s : ControllerState) (b : Bool) :
      Reachable s → Reachable (s.set_manual_on b)
  | updateRelay (s : ControllerState) (b : Bool) :
      Reachable s → Reachable (s.update_relay b)
  | updateWeather (s : ControllerState) (w : Option Weather) :
      Reachable s → Reachable (s.update_weather w)

/-- Failure modes of the Python `dew_point_c`: `domainError` models the
`ValueError: math domain error` raised by `math.log` on a non-positive
argument, `zeroDivisionError` models float division by zero. -/
inductive DewError
  | domainError
  | zeroDivisionError
deriving DecidableEq, Repr

/-- `gamma = (a * temp_c / (b + temp_c)) + math.log(humidity / 100.0)`
with a = 17.27 and b = 237.7. -/
noncomputable def gammaVal (temp_c humidity : ℝ) : ℝ :=
  17.27 * temp_c / (237.7 + temp_c) + Real.log (humidity / 100)

open Classical in
/-- `dew_point_c(temp_c, humidity)` from `metrics.py`, with Python's
raising operations made explicit: dividing by a zero `b + temp_c` or a
zero `a - gamma` raises `ZeroDivisionError`, and `math.log` of a
non-positive `humidity / 100` raises a domain error. -/
noncomputable def dew_point_c (temp_c humidity : ℝ) : Except DewError ℝ :=
  if 237.7 + temp_c = 0 then Except.error DewError.zeroDivisionError
  else if humidity / 100 ≤ 0 then Except.error DewError.domainError
  else if 17.27 - gammaVal temp_c humidity = 0 then
    Except.error DewError.zeroDivisionError
  else
    Except.ok (237.7 * gammaVal temp_c humidity /
      (17.27 - gammaVal temp_c humidity))

/-! Helper lemmas: projections of one decision cycle. -/

lemma stateAfterForce_relay_on (s : ControllerState) (inp : CycleInput) :
    (stateAfterForce s inp).relay_on = s.relay_on := by
  unfold stateAfterForce stateAfterTimers ControllerState.start_forced_run
  split <;> rfl

lemma stateAfterForce_mode (s : ControllerState) (inp : CycleInput) :
    (stateAfterForce s inp).mode = s.mode := by
  unfold stateAfterForce stateAfterTimers ControllerState.start_forced_run
  split <;> rfl

lemma stateAfterForce_manual_on (s : ControllerState) (inp : CycleInput) :
    (stateAfterForce s inp).manual_on = s.manual_on := by
  unfold stateAfterForce stateAfterTimers ControllerState.start_forced_run
  split <;> rfl

lemma stateAfterForce_run_until (s : ControllerState) (inp : CycleInput) :
    (stateAfterForce s inp).auto_run_until =
      if canForce s inp then some (inp.now + FORCE_RUN_DURATION)
      else runAfterExpire s inp := by
  unfold stateAfterForce stateAfterTimers ControllerState.start_forced_run
  split <;> simp_all

lemma stateAfterForce_cooldown_until (s : ControllerState) (inp : CycleInput) :
    (stateAfterForce s inp).auto_cooldown_until =
      if canForce s inp then
        some (inp.now + FORCE_RUN_DURATION + FORCE_RUN_COOLDOWN)
      else cooldownAfterExpire s inp := by
  unfold stateAfterForce stateAfterTimers ControllerState.start_forced_run
  split <;> simp_all

lemma cycle_started (s : ControllerState) (inp : CycleInput) :
    (cycle s inp).forced_run_started = canForce s inp := by
  unfold cycle
  cases s.mode <;> dsimp only <;> split_ifs <;> rfl

lemma cycle_mode (s : ControllerState) (inp : CycleInput) :
    (cycle s inp).state.mode = s.mode := by
  unfold cycle
  cases hm : s.mode <;> dsimp only <;> split_ifs <;>
    simp [ControllerState.update_relay, stateAfterForce_mode, hm]

lemma cycle_manual_on (s : ControllerState) (inp : CycleInput) :
    (cycle s inp).state.manual_on = s.manual_on := by
  unfold cycle
  cases hm : s.mode <;> dsimp only <;> split_ifs <;>
    simp [ControllerState.update_relay, stateAfterForce_manual_on]

lemma cycle_run_until (s : ControllerState) (inp : CycleInput) :
    (cycle s inp).state.auto_run_until =
      (stateAfterForce s inp).auto_run_until := by
  unfold cycle
  cases hm : s.mode <;> dsimp only <;> split_ifs <;>
    simp [ControllerState.update_relay]

lemma cycle_cooldown_until (s : ControllerState) (inp : CycleInput) :
    (cycle s inp).state.auto_cooldown_until =
      (stateAfterForce s inp).auto_cooldown_until := by
  unfold cycle
  cases hm : s.mode <;> dsimp only <;> split_ifs <;>
    simp [ControllerState.update_relay]

lemma expireTimer_some (t : Option ℚ) (now r : ℚ)
    (h : expireTimer t now = some r) : t = some r := by
  unfold expireTimer at h
  cases t with
  | none => exact absurd h (by simp)
  | some x =>
      by_cases hx : now ≥ x <;> simp [hx] at h
      simp [h]

/-- Claim C1 (amended): in every manual-mode cycle the relay command equals
`manual_on` verbatim and a hardware write happens exactly on a transition;
however (unlike the original claim) the timer logic is not skipped — the
timers may still be expired or started this cycle, see the
counterexample. -/
theorem cycle_manual_mirrors_target (s : ControllerState) (inp : CycleInput)
    (hm : s.mode = Mode.manual) :
    (cycle s inp).state.relay_on = s.manual_on ∧
    (cycle s inp).writes =
      (if s.manual_on = s.relay_on then [] else [s.manual_on]) ∧
    (cycle s inp).state.mode = Mode.manual := by
  refine ⟨?_, ?_, by rw [cycle_mode, hm]⟩ <;>
  · unfold cycle
    rw [hm]
    dsimp only
    by_cases h : s.manual_on = s.relay_on <;>
      simp [h, stateAfterForce_relay_on, ControllerState.update_relay]

/-- Witness for C1 at a concrete manual-mode state with the relay already
matching the target. -/
theorem cycle_manual_mirrors_target_witness :
    (cycle ⟨Mode.manual, true, true, none, none, none⟩
      ⟨10, 50, 5, 0, 0, none⟩).state.relay_on = true ∧
    (cycle ⟨Mode.manual, true, true, none, none, none⟩
      ⟨10, 50, 5, 0, 0, none⟩).writes = [] ∧
    (cycle ⟨Mode.manual, true, true, none, none, none⟩
      ⟨10, 50, 5, 0, 0, none⟩).state.mode = Mode.manual :=
  cycle_manual_mirrors_target _ _ rfl

/-- Counterexample to C1 as stated: a manual-mode cycle (manual target on,
ambient gap within `FORCE_RUN_TEMP_DIFF_C`, warm-up elapsed) in which
`start_forced_run` is called and both timers are set. -/
theorem cycle_manual_forced_run_cex :
    (⟨Mode.manual, true, false, none, none, none⟩ : ControllerState).mode =
      Mode.manual ∧
    (⟨Mode.manual, true, false, none, none,
      none⟩ : ControllerState).auto_run_until = none ∧
    (cycle ⟨Mode.manual, true, false, none, none, none⟩
      ⟨10, 50, 5, 3600, 0,
        some ⟨some 5, some 4, none, none⟩⟩).forced_run_started = true ∧
    (cycle ⟨Mode.manual, true, false, none, none, none⟩
      ⟨10, 50, 5, 3600, 0,
        some ⟨some 5, some 4, none, none⟩⟩).state.auto_run_until =
      some 5400 ∧
    (cycle ⟨Mode.manual, true, false, none, none, none⟩
      ⟨10, 50, 5, 3600, 0,
        some ⟨some 5, some 4, none, none⟩⟩).state.auto_cooldown_until =
      some 9000 := by
  norm_num [cycle, stateAfterForce, stateAfterTimers, canForce, autoReady,
    daylightOf, daylightBlock, sunriseOf, sunsetOf, inForcedRun,
    inForcedRunAfter, cooldownActive, runAfterExpire, cooldownAfterExpire,
    expireTimer, timerActive, ambientTempOf, ambientDewOf,
    ControllerState.start_forced_run, ControllerState.update_relay,
    FORCE_RUN_TEMP_DIFF_C, FORCE_RUN_DURATION, FORCE_RUN_COOLDOWN]

/-- Claim C2 (amended): in an auto-mode cycle with both sun times known,
`now` strictly inside the sunrise+30min .. sunset-30min window and no
forced run active, no forced run starts and the relay ends up at
`relay_on && not should_turn_off`: an OFF relay stays off regardless of
the thresholds, but an ON relay is not forced off — it only turns off when
the ordinary hysteresis OFF condition holds. -/
theorem cycle_daylight_block (s : ControllerState) (inp : CycleInput)
    (hm : s.mode = Mode.auto) (sr ss : ℚ)
    (hsr : sunriseOf inp = some sr) (hss : sunsetOf inp = some ss)
    (h1 : sr + 30 * 60 < inp.now) (h2 : inp.now < ss - 30 * 60)
    (hnf : inForcedRun s inp = false) :
    (cycle s inp).forced_run_started = false ∧
    (cycle s inp).state.relay_on = (s.relay_on && !shouldTurnOff inp) := by
  have hdl : daylightOf inp = true := by
    unfold daylightOf
    rw [hsr, hss]
    unfold daylightBlock
    simp only [Bool.and_eq_true, decide_eq_true_eq]
    exact ⟨⟨by linarith, by linarith⟩, ⟨le_of_lt h1, le_of_lt h2⟩⟩
  have hcf : canForce s inp = false := by
    unfold canForce
    simp [hdl]
  have hifa : inForcedRunAfter s inp = false := by
    unfold inForcedRunAfter
    rw [hnf, hcf]
    rfl
  refine ⟨by rw [cycle_started]; exact hcf, ?_⟩
  unfold cycle
  rw [hm]
  dsimp only
  cases hr : s.relay_on <;> cases ho : shouldTurnOff inp <;>
    cases hon : shouldTurnOn inp <;>
      simp [hifa, hr, ho, hon, hdl, stateAfterForce_relay_on,
        ControllerState.update_relay]

/-- Witness for C2 at a concrete daylight-blocked cycle with the relay
off. -/
theorem cycle_daylight_block_witness :
    (cycle ⟨Mode.auto, false, false, none, none, none⟩
      ⟨10, 50, 7, 18000, 0,
        some ⟨none, none, some 0, some 36000⟩⟩).forced_run_started = false ∧
    (cycle ⟨Mode.auto, false, false, none, none, none⟩
      ⟨10, 50, 7, 18000, 0,
        some ⟨none, none, some 0, some 36000⟩⟩).state.relay_on = false :=
  cycle_daylight_block _ _ rfl 0 36000 rfl rfl (by norm_num) (by norm_num) rfl

/-- Counterexample to C2 as stated: auto mode, both sun times known, `now`
strictly inside the blocked window, yet a relay that is currently on stays
on (the hysteresis OFF condition does not hold, and the daylight block
never forces an ON relay off). -/
theorem cycle_daylight_block_cex :
    ((0 : ℚ) + 30 * 60 < 18000 ∧ (18000 : ℚ) < 36000 - 30 * 60) ∧
    (⟨Mode.auto, false, true, none, none, none⟩ : ControllerState).mode =
      Mode.auto ∧
    (cycle ⟨Mode.auto, false, true, none, none, none⟩
      ⟨10, 50, 7, 18000, 0,
        some ⟨some 9, some 8, some 0, some 36000⟩⟩).state.relay_on =
      true := by
  norm_num [cycle, stateAfterForce, stateAfterTimers, canForce, autoReady,
    daylightOf, daylightBlock, sunriseOf, sunsetOf, inForcedRun,
    inForcedRunAfter, cooldownActive, runAfterExpire, cooldownAfterExpire,
    expireTimer, timerActive, ambientTempOf, ambientDewOf, shouldTurnOn,
    shouldTurnOff, thresholdTemp, baselineDew,
    ControllerState.start_forced_run, ControllerState.update_relay,
    FORCE_RUN_TEMP_DIFF_C, HYSTERESIS_C, AMBIENT_TEMP_OFFSET_C]

/-- Claim C3 (amended): the warm-up gate blocks auto ON transitions and
forced-run starts; an auto OFF transition is still permitted below 15
minutes of uptime.  (The original claim also said forced-run starts are
permitted below warm-up; the counterexample shows they are not:
`can_force_run` requires `auto_ready`.) -/
theorem warmup_gate_scope (s : ControllerState) (inp : CycleInput)
    (hm : s.mode = Mode.auto) (hnr : autoReady inp = false)
    (hnf : inForcedRun s inp = false)
    (hoff : shouldTurnOff inp = true) (hrel : s.relay_on = true) :
    (cycle s inp).state.relay_on = false ∧
    (cycle s inp).writes = [false] ∧
    (cycle s inp).forced_run_started = false := by
  have hcf : canForce s inp = false := by
    unfold canForce
    simp [hnr]
  have hifa : inForcedRunAfter s inp = false := by
    unfold inForcedRunAfter
    rw [hnf, hcf]
    rfl
  refine ⟨?_, ?_, by rw [cycle_started]; exact hcf⟩ <;>
  · unfold cycle
    rw [hm]
    dsimp only
    simp [hifa, hrel, hoff, ControllerState.update_relay]

/-- Witness for C3: a concrete cycle with zero uptime in which the OFF
transition still happens. -/
theorem warmup_gate_scope_witness :
    (cycle ⟨Mode.auto, false, true, none, none, none⟩
      ⟨30, 50, 7, 0, 0, none⟩).state.relay_on = false ∧
    (cycle ⟨Mode.auto, false, true, none, none, none⟩
      ⟨30, 50, 7, 0, 0, none⟩).writes = [false] ∧
    (cycle ⟨Mode.auto, false, true, none, none, none⟩
      ⟨30, 50, 7, 0, 0, none⟩).forced_run_started = false :=
  warmup_gate_scope _ _ rfl (by norm_num [autoReady]) rfl
    (by norm_num [shouldTurnOff, thresholdTemp, baselineDew, ambientDewOf,
      HYSTERESIS_C, AMBIENT_TEMP_OFFSET_C]) rfl

/-- Counterexample to C3 as stated: with every other forced-run condition
satisfied, a start is blocked at zero uptime and happens once the same
cycle runs with 60 minutes of uptime — the warm-up gate does block
forced-run starts. -/
theorem warmup_gate_cex :
    (cycle ⟨Mode.auto, false, false, none, none, none⟩
      ⟨10, 50, 5, 0, 0,
        some ⟨some 5, some 4, none, none⟩⟩).forced_run_started = false ∧
    (cycle ⟨Mode.auto, false, false, none, none, none⟩
      ⟨10, 50, 5, 0, -3600,
        some ⟨some 5, some 4, none, none⟩⟩).forced_run_started = true := by
  norm_num [cycle_started, canForce, autoReady, daylightOf, daylightBlock,
    sunriseOf, sunsetOf, inForcedRun, cooldownActive, runAfterExpire,
    cooldownAfterExpire, expireTimer, timerActive, ambientTempOf,
    ambientDewOf, FORCE_RUN_TEMP_DIFF_C]

/-- Claim C5: when the humidity change from the retained baseline exceeds
15 points and no spike is pending, the reading is rejected — the whole
control cycle is skipped, no writes happen, the controller state and
`last_humidity` are unchanged and the pending flag is set; when a spike is
already pending, the new value is accepted as the new baseline, pending is
cleared and the cycle runs. -/
theorem spike_filter_spec (ls : LoopState) (inp : CycleInput) (prev : ℚ)
    (hprev : ls.last_humidity = some prev)
    (hch : |inp.humidity - prev| > 15) :
    (ls.spike_pending = false →
      loopStep ls inp =
        { loopState := { ls with spike_pending := true }
          writes := []
          cycle_ran := false }) ∧
    (ls.spike_pending = true →
      (loopStep ls inp).loopState.ctrl = (cycle ls.ctrl inp).state ∧
      (loopStep ls inp).loopState.last_humidity = some inp.humidity ∧
      (loopStep ls inp).loopState.spike_pending = false ∧
      (loopStep ls inp).cycle_ran = true) := by
  constructor <;> intro hp <;> simp [loopStep, hprev, hch, hp]

/-- Witness for C5: a 20-point jump from baseline 50 is rejected once. -/
theorem spike_filter_spec_witness :
    ((⟨ControllerState.init, some 50, false⟩ : LoopState).spike_pending =
        false →
      loopStep ⟨ControllerState.init, some 50, false⟩
          ⟨10, 70, 5, 0, 0, none⟩ =
        { loopState := ⟨ControllerState.init, some 50, true⟩
          writes := []
          cycle_ran := false }) ∧
    ((⟨ControllerState.init, some 50, false⟩ : LoopState).spike_pending =
        true →
      (loopStep ⟨ControllerState.init, some 50, false⟩
          ⟨10, 70, 5, 0, 0, none⟩).loopState.ctrl =
        (cycle ControllerState.init ⟨10, 70, 5, 0, 0, none⟩).state ∧
      (loopStep ⟨ControllerState.init, some 50, false⟩
          ⟨10, 70, 5, 0, 0, none⟩).loopState.last_humidity = some 70 ∧
      (loopStep ⟨ControllerState.init, some 50, false⟩
          ⟨10, 70, 5, 0, 0, none⟩).loopState.spike_pending = false ∧
      (loopStep ⟨ControllerState.init, some 50, false⟩
          ⟨10, 70, 5, 0, 0, none⟩).cycle_ran = true) :=
  spike_filter_spec _ _ 50 rfl (by norm_num)

/-- Claim C6: in every state reachable through the program's operations on
the shared state, whenever both timers are present the cooldown ends no
earlier than the forced run: the engine always sets
`cooldown_until = forced_run_until + FORCE_RUN_COOLDOWN` atomically. -/
theorem forced_run_timer_invariant (s : ControllerState) (h : Reachable s) :
    ∀ r c, s.auto_run_until = some r → s.auto_cooldown_until = some c →
      r ≤ c := by
  induction h with
  | init =>
      intro r c hr hc
      exact absurd hr (by simp [ControllerState.init])
  | cycleStep s inp hs ih =>
      intro r c hr hc
      rw [cycle_run_until, stateAfterForce_run_until] at hr
      rw [cycle_cooldown_until, stateAfterForce_cooldown_until] at hc
      by_cases hf : canForce s inp = true
      · rw [if_pos hf] at hr hc
        have hr2 : r = inp.now + FORCE_RUN_DURATION := by
          exact (Option.some_inj.mp hr).symm
        have hc2 : c = inp.now + FORCE_RUN_DURATION + FORCE_RUN_COOLDOWN := by
          exact (Option.some_inj.mp hc).symm
        have hpos : (0 : ℚ) ≤ FORCE_RUN_COOLDOWN := by
          norm_num [FORCE_RUN_COOLDOWN]
        rw [hr2, hc2]
        linarith
      · rw [if_neg hf] at hr hc
        exact ih r c (expireTimer_some _ _ _ hr) (expireTimer_some _ _ _ hc)
  | setMode s m b hs ih =>
      intro r c hr hc
      exact ih r c hr hc
  | setManualOn s b hs ih =>
      intro r c hr hc
      exact ih r c hr hc
  | updateRelay s b hs ih =>
      intro r c hr hc
      exact ih r c hr hc
  | updateWeather s w hs ih =>
      intro r c hr hc
      exact ih r c hr hc

/-- Witness for C6: the state reached by a forced-run start from the
initial state has both timers set, with cooldown after run end. -/
theorem forced_run_timer_invariant_witness :
    (cycle ControllerState.init
      ⟨10, 50, 5, 3600, 0,
        some ⟨some 5, some 4, none, none⟩⟩).state.auto_run_until =
      some 5400 ∧
    (cycle ControllerState.init
      ⟨10, 50, 5, 3600, 0,
        some ⟨some 5, some 4, none, none⟩⟩).state.auto_cooldown_until =
      some 9000 ∧
    (5400 : ℚ) ≤ 9000 :=
  have h1 : (cycle ControllerState.init
      ⟨10, 50, 5, 3600, 0,
        some ⟨some 5, some 4, none, none⟩⟩).state.auto_run_until =
      some 5400 := by
    norm_num [cycle, stateAfterForce, stateAfterTimers, canForce, autoReady,
      daylightOf, daylightBlock, sunriseOf, sunsetOf, inForcedRun,
      inForcedRunAfter, cooldownActive, runAfterExpire, cooldownAfterExpire,
      expireTimer, timerActive, ambientTempOf, ambientDewOf,
      ControllerState.start_forced_run, ControllerState.update_relay,
      ControllerState.init, FORCE_RUN_TEMP_DIFF_C, FORCE_RUN_DURATION,
      FORCE_RUN_COOLDOWN]
  have h2 : (cycle ControllerState.init
      ⟨10, 50, 5, 3600, 0,
        some ⟨some 5, some 4, none, none⟩⟩).state.auto_cooldown_until =
      some 9000 := by
    norm_num [cycle, stateAfterForce, stateAfterTimers, canForce, autoReady,
      daylightOf, daylightBlock, sunriseOf, sunsetOf, inForcedRun,
      inForcedRunAfter, cooldownActive, runAfterExpire, cooldownAfterExpire,
      expireTimer, timerActive, ambientTempOf, ambientDewOf,
      ControllerState.start_forced_run, ControllerState.update_relay,
      ControllerState.init, FORCE_RUN_TEMP_DIFF_C, FORCE_RUN_DURATION,
      FORCE_RUN_COOLDOWN]
  ⟨h1, h2,
    forced_run_timer_invariant _
      (Reachable.cycleStep _ _ Reachable.init) 5400 9000 h1 h2⟩

/-- Claim C7: over any sequence of auto-mode cycles with no forced run
active or starting, while the threshold temperature stays strictly inside
the hysteresis band above the baseline dew point, the relay state never
changes. -/
theorem hysteresis_band_no_chatter (inputs : List CycleInput)
    (s : ControllerState) (hm : s.mode = Mode.auto)
    (H : ∀ p ∈ trajPairs s inputs,
      inForcedRun p.1 p.2 = false ∧ canForce p.1 p.2 = false ∧
      baselineDew p.2 < thresholdTemp p.2 ∧
      thresholdTemp p.2 < baselineDew p.2 + HYSTERESIS_C) :
    (runCycles s inputs).relay_on = s.relay_on := by
  induction inputs generalizing s with
  | nil => rfl
  | cons i rest ih =>
      have hp := H (s, i) (by rw [trajPairs]; exact List.mem_cons_self _ _)
      have hon : shouldTurnOn i = false := by
        unfold shouldTurnOn
        simp only [decide_eq_false_iff_not, not_lt]
        exact le_of_lt hp.2.2.1
      have hoff : shouldTurnOff i = false := by
        unfold shouldTurnOff
        simp only [gt_iff_lt, decide_eq_false_iff_not, not_lt]
        exact le_of_lt hp.2.2.2
      have hifa : inForcedRunAfter s i = false := by
        unfold inForcedRunAfter
        rw [hp.1, hp.2.1]
        rfl
      have hold : (runCycle s i).relay_on = s.relay_on := by
        unfold runCycle cycle
        rw [hm]
        dsimp only
        simp [hifa, hon, hoff, stateAfterForce_relay_on]
      have hmode2 : (runCycle s i).mode = Mode.auto := by
        unfold runCycle
        rw [cycle_mode]
        exact hm
      have hsub : ∀ p ∈ trajPairs (runCycle s i) rest,
          inForcedRun p.1 p.2 = false ∧ canForce p.1 p.2 = false ∧
          baselineDew p.2 < thresholdTemp p.2 ∧
          thresholdTemp p.2 < baselineDew p.2 + HYSTERESIS_C := by
        intro p hp2
        apply H
        rw [trajPairs]
        exact List.mem_cons_of_mem _ hp2
      calc (runCycles s (i :: rest)).relay_on
          = (runCycles (runCycle s i) rest).relay_on := rfl
        _ = (runCycle s i).relay_on := ih (runCycle s i) hmode2 hsub
        _ = s.relay_on := hold

/-- Witness for C7: one cycle inside the hysteresis band holds the relay
on. -/
theorem hysteresis_band_no_chatter_witness :
    (runCycles ⟨Mode.auto, false, true, none, none, none⟩
      [⟨20, 50, 12, 0, 0, none⟩]).relay_on = true :=
  hysteresis_band_no_chatter _ _ rfl
    (by
      intro p hp
      rw [trajPairs] at hp
      simp only [trajPairs, List.mem_singleton] at hp
      subst hp
      refine ⟨rfl, ?_, ?_, ?_⟩
      · norm_num [canForce, autoReady, ambientTempOf, ambientDewOf,
          daylightOf, daylightBlock, sunriseOf, sunsetOf, inForcedRun,
          cooldownActive, runAfterExpire, cooldownAfterExpire, expireTimer,
          timerActive]
      · norm_num [baselineDew, thresholdTemp, ambientDewOf,
          AMBIENT_TEMP_OFFSET_C]
      · norm_num [baselineDew, thresholdTemp, ambientDewOf,
          AMBIENT_TEMP_OFFSET_C, HYSTERESIS_C])

/-- Claim C8: the engine is idempotent with respect to hardware writes:
every cycle either issues no write and leaves the relay as it was, or
issues exactly one write that flips the relay — never a redundant write of
the current state. -/
theorem relay_write_only_on_transition (s : ControllerState)
    (inp : CycleInput) :
    ((cycle s inp).writes = [] ∧
      (cycle s inp).state.relay_on = s.relay_on) ∨
    ((cycle s inp).writes = [(cycle s inp).state.relay_on] ∧
      (cycle s inp).state.relay_on = !s.relay_on) := by
  unfold cycle
  cases hm : s.mode <;> cases hr : s.relay_on <;> dsimp only <;>
    split_ifs <;>
      first
        | exact Or.inl ⟨rfl, by simp [stateAfterForce_relay_on, hr]⟩
        | (refine Or.inr ⟨?_, ?_⟩ <;>
            simp_all [ControllerState.update_relay, stateAfterForce_relay_on])

/-! Helper lemmas for the dew-point function. -/

lemma gammaVal_lt (T RH : ℝ) (hT : -237.7 < T) (h0 : 0 < RH)
    (h1 : RH ≤ 100) : gammaVal T RH < 17.27 := by
  have hb : (0:ℝ) < 237.7 + T := by linarith
  have hlog : Real.log (RH / 100) ≤ 0 :=
    Real.log_nonpos (le_of_lt (div_pos h0 (by norm_num)))
      ((div_le_one (by norm_num)).mpr h1)
  have hg0 : 17.27 * T / (237.7 + T) < 17.27 := by
    rw [div_lt_iff₀ hb]
    nlinarith
  unfold gammaVal
  linarith

lemma dew_point_ok (T RH : ℝ) (hT : -237.7 < T) (h0 : 0 < RH)
    (h1 : RH ≤ 100) :
    dew_point_c T RH =
      Except.ok (237.7 * gammaVal T RH / (17.27 - gammaVal T RH)) := by
  have hb : (0:ℝ) < 237.7 + T := by linarith
  have hg := gammaVal_lt T RH hT h0 h1
  unfold dew_point_c
  rw [if_neg (ne_of_gt hb), if_neg (not_le.mpr (div_pos h0 (by norm_num))),
    if_neg (by intro h; linarith)]

/-- Claim C4: for humidity at or below zero the dew-point computation
fails (never returns a value — so it cannot silently produce a number),
and away from the formula's pole at `temp_c = -237.7` the failure is
precisely the logarithm's domain error, as the spec requires. -/
theorem dew_point_rejects_nonpos_humidity (T RH : ℝ) (h : RH ≤ 0) :
    (∃ e, dew_point_c T RH = Except.error e) ∧
    (237.7 + T ≠ 0 →
      dew_point_c T RH = Except.error DewError.domainError) := by
  have hd : RH / 100 ≤ 0 := by
    rw [div_nonpos_iff]
    right
    exact ⟨h, by norm_num⟩
  constructor
  · by_cases hb : 237.7 + T = 0
    · exact ⟨DewError.zeroDivisionError, by
        unfold dew_point_c
        rw [if_pos hb]⟩
    · exact ⟨DewError.domainError, by
        unfold dew_point_c
        rw [if_neg hb, if_pos hd]⟩
  · intro hb
    unfold dew_point_c
    rw [if_neg hb, if_pos hd]

/-- Witness for C4 at temperature 20, humidity -5. -/
theorem dew_point_rejects_nonpos_humidity_witness :
    (∃ e, dew_point_c 20 (-5) = Except.error e) ∧
    ((237.7:ℝ) + 20 ≠ 0 →
      dew_point_c 20 (-5) = Except.error DewError.domainError) :=
  dew_point_rejects_nonpos_humidity 20 (-5) (by norm_num)

/-- Claim C10: for temperature above -237.7 and humidity in (0, 100], the
denominator `b + T` is strictly positive, `gamma` stays strictly below
`a = 17.27` (so `a - gamma` is strictly positive) and the computation
divides by no zero: it returns a value. -/
theorem dew_point_no_div_zero (T RH : ℝ) (hT : -237.7 < T) (h0 : 0 < RH)
    (h1 : RH ≤ 100) :
    0 < 237.7 + T ∧ gammaVal T RH < 17.27 ∧
    0 < 17.27 - gammaVal T RH ∧
    ∃ v, dew_point_c T RH = Except.ok v := by
  have hb : (0:ℝ) < 237.7 + T := by linarith
  have hg := gammaVal_lt T RH hT h0 h1
  exact ⟨hb, hg, by linarith, _, dew_point_ok T RH hT h0 h1⟩

/-- Witness for C10 at temperature 20, humidity 50. -/
theorem dew_point_no_div_zero_witness :
    0 < (237.7:ℝ) + 20 ∧ gammaVal 20 50 < 17.27 ∧
    0 < 17.27 - gammaVal 20 50 ∧
    ∃ v, dew_point_c 20 50 = Except.ok v :=
  dew_point_no_div_zero 20 50 (by norm_num) (by norm_num) (by norm_num)

/-- Claim C9 (amended with the physical-range hypothesis T > -237.7, which
the counterexample shows is needed): for humidity in (0, 100] the dew
point is at most the temperature, with equality at humidity 100. -/
theorem dew_point_le_temp (T RH : ℝ) (hT : -237.7 < T) (h0 : 0 < RH)
    (h1 : RH ≤ 100) :
    ∃ v, dew_point_c T RH = Except.ok v ∧ v ≤ T ∧ (RH = 100 → v = T) := by
  have hb : (0:ℝ) < 237.7 + T := by linarith
  have hg := gammaVal_lt T RH hT h0 h1
  have hden : (0:ℝ) < 17.27 - gammaVal T RH := by linarith
  have hgle : gammaVal T RH ≤ 17.27 * T / (237.7 + T) := by
    have hlog : Real.log (RH / 100) ≤ 0 :=
      Real.log_nonpos (le_of_lt (div_pos h0 (by norm_num)))
        ((div_le_one (by norm_num)).mpr h1)
    unfold gammaVal
    linarith
  refine ⟨_, dew_point_ok T RH hT h0 h1, ?_, ?_⟩
  · rw [div_le_iff₀ hden]
    rw [le_div_iff₀ hb] at hgle
    nlinarith [hgle]
  · intro h100
    subst h100
    have hgv : gammaVal T 100 = 17.27 * T / (237.7 + T) := by
      unfold gammaVal
      rw [div_self (by norm_num : (100:ℝ) ≠ 0), Real.log_one]
      ring
    have hden2 : (0:ℝ) < 17.27 - 17.27 * T / (237.7 + T) := by
      rw [hgv] at hden
      exact hden
    rw [hgv]
    field_simp
    ring

/-- Witness for C9's amended theorem at temperature 20, humidity 50. -/
theorem dew_point_le_temp_witness :
    ∃ v, dew_point_c 20 50 = Except.ok v ∧ v ≤ 20 ∧
      ((50:ℝ) = 100 → v = 20) :=
  dew_point_le_temp 20 50 (by norm_num) (by norm_num) (by norm_num)

/-- Counterexample to C9 as stated (no bound on T): at temperature -300
and the valid humidity 100·exp(-67) ∈ (0, 100], the formula returns a
value far above the temperature. -/
theorem dew_point_le_temp_cex :
    (0:ℝ) < 100 * Real.exp (-67) ∧ (100:ℝ) * Real.exp (-67) ≤ 100 ∧
    ∃ v, dew_point_c (-300) (100 * Real.exp (-67)) = Except.ok v ∧
      ¬(v ≤ -300) := by
  have hexp : (0:ℝ) < Real.exp (-67) := Real.exp_pos _
  have hexp1 : Real.exp (-67:ℝ) ≤ 1 := by
    calc Real.exp (-67:ℝ) ≤ Real.exp 0 := Real.exp_le_exp.mpr (by norm_num)
      _ = 1 := Real.exp_zero
  have hrh : (100:ℝ) * Real.exp (-67) / 100 = Real.exp (-67) := by
    field_simp
  have hg : gammaVal (-300) (100 * Real.exp (-67)) = 10069 / 623 := by
    unfold gammaVal
    rw [hrh, Real.log_exp]
    norm_num
  have hok : dew_point_c (-300) (100 * Real.exp (-67)) =
      Except.ok ((237.7 : ℝ) * (10069 / 623) / (17.27 - 10069 / 623)) := by
    unfold dew_point_c
    rw [hg]
    rw [if_neg (by norm_num), if_neg (by rw [hrh]; exact not_le.mpr hexp),
      if_neg (by norm_num)]
  refine ⟨by positivity, by nlinarith, _, hok, by norm_num⟩
